import Mathlib

/-!
Verification of the `ringparams_facts` module: a shallow embedding of its
interface enumerator, per-interface fetch handling, and the line scanner that
extracts current/preset RX/TX ring parameters from the query tool's stdout.

The embedding mirrors `src/ringparams_facts.py`. External process execution is
represented by its observable result: an exit code, stdout text and stderr
text per invocation.
-/

namespace RingparamsFacts

/-- Characters stripped by Python's `str.strip()` with no arguments
(ASCII whitespace: space, tab, newline, carriage return, vertical tab,
form feed). -/
def isPyStripSpace (c : Char) : Bool :=
  c = ' ' || c = '\t' || c = '\n' || c = '\r' || c = '\x0b' || c = '\x0c'

/-- Python `s.strip()`: remove leading and trailing whitespace characters. -/
def pyStrip (s : String) : String :=
  String.mk (((s.data.dropWhile isPyStripSpace).reverse.dropWhile isPyStripSpace).reverse)

/-- Split a character list on every occurrence of a separator character;
always returns a non-empty list of segments. This is Python `str.split(sep)`
for a one-character separator, rendered structurally so proofs can compute. -/
def splitOnChar (sep : Char) : List Char → List (List Char)
  | [] => [[]]
  | c :: cs =>
    match splitOnChar sep cs with
    | [] => [[]]
    | h :: t => if c = sep then [] :: h :: t else (c :: h) :: t

/-- Python `s.split(sep)` for a one-character separator, on strings. -/
def pySplit (s : String) (sep : Char) : List String :=
  (splitOnChar sep s.data).map String.mk

/-- Python `s.startswith(p)`. -/
def pyStartsWith (s p : String) : Bool :=
  p.data.isPrefixOf s.data

/-- Python `s.replace(c, r)` for one-character pattern and replacement
(the source only uses `replace("\n", ".")`). -/
def pyReplaceChar (s : String) (c r : Char) : String :=
  String.mk (s.data.map (fun x => if x = c then r else x))

/-- Python `s.splitlines()` restricted to `\n` line boundaries (the query
tool's output uses `\n`); on the empty string it returns the empty list,
matching Python. The source always applies it to an already-stripped string,
so no trailing line terminator is present. -/
def pySplitlines (s : String) : List String :=
  if s = "" then [] else pySplit s '\n'

/-- One result of `module.run_command`: exit code, stdout, stderr. -/
structure FetchResult where
  rc : Int
  stdout : String
  stderr : String
deriving DecidableEq, Repr

/-- A ring-parameter mapping with at most the two keys `RX` and `TX`
(a Python dict in the source); `none` means the key is absent. -/
structure RingParameterSet where
  RX : Option String := none
  TX : Option String := none
deriving DecidableEq, Repr

/-- The per-interface `values[interface]` dict: `current` and `preset` sets. -/
structure Values where
  current : RingParameterSet := {}
  preset : RingParameterSet := {}
deriving DecidableEq, Repr

/-- Whether both parameter sets are empty (no `RX` or `TX` key in either). -/
def Values.isEmptyB (v : Values) : Bool :=
  v.current.RX.isNone && v.current.TX.isNone &&
    v.preset.RX.isNone && v.preset.TX.isNone

/-- The scanner state of the stdout loop in `main`: the two section flags
`pre` and `current` plus the values accumulated so far. -/
structure ScanState where
  pre : Bool := false
  current : Bool := false
  values : Values := {}
deriving DecidableEq, Repr

/-- Initial scanner state: both flags false, both parameter sets empty. -/
def initState : ScanState := {}

/-- `if l == 'Pre-set maximums:': current = False; pre = True`. -/
def applyPresetHeader (l : String) (st : ScanState) : ScanState :=
  if l = "Pre-set maximums:" then { st with current := false, pre := true } else st

/-- `if l == 'Current hardware settings:': current = True; pre = False`. -/
def applyCurrentHeader (l : String) (st : ScanState) : ScanState :=
  if l = "Current hardware settings:" then { st with current := true, pre := false } else st

/-- `if l.startswith('RX:')`: store `l.split(':')[1].strip()` under `RX` of
the current set when `current` is set, and of the preset set when `pre` is
set. The `[1]` index exists whenever the guard holds, since `l` contains a
colon; `getD 1 ""` is its total rendering. -/
def applyRX (l : String) (st : ScanState) : ScanState :=
  if pyStartsWith l "RX:" then
    let v := pyStrip ((pySplit l ':').getD 1 "")
    let st1 := if st.current then
      { st with values := { st.values with current := { st.values.current with RX := some v } } }
      else st
    if st1.pre then
      { st1 with values := { st1.values with preset := { st1.values.preset with RX := some v } } }
      else st1
  else st

/-- `if l.startswith('TX:')`: same as `applyRX` for the `TX` key. -/
def applyTX (l : String) (st : ScanState) : ScanState :=
  if pyStartsWith l "TX:" then
    let v := pyStrip ((pySplit l ':').getD 1 "")
    let st1 := if st.current then
      { st with values := { st.values with current := { st.values.current with TX := some v } } }
      else st
    if st1.pre then
      { st1 with values := { st1.values with preset := { st1.values.preset with TX := some v } } }
      else st1
  else st

/-- One iteration of the stdout loop: `l = line.strip()` followed by the four
independent pattern checks, in source order. -/
def processLine (st : ScanState) (line : String) : ScanState :=
  let l := pyStrip line
  applyTX l (applyRX l (applyCurrentHeader l (applyPresetHeader l st)))

/-- Scan of one interface's stdout:
`for line in stdout.strip().splitlines(): ...`, starting from both flags
false and both parameter sets empty; returns the accumulated values. -/
def parseStdout (stdout : String) : Values :=
  (List.foldl processLine initState (pySplitlines (pyStrip stdout))).values

/-- The output record for one interface (one element of `ringparams`). -/
structure InterfaceRecord where
  interface : String
  supported : Bool
  parameters : Values
  msg : Option String := none
deriving DecidableEq, Repr

/-- The loop body of `main` for one interface: run the query command, and
either record the failure (non-zero exit code) together with the warning
`module.warn` emits, or parse the stdout into a supported record.
Returns the record and the warnings emitted for this interface. -/
def processInterface (fetch : String → FetchResult) (interface : String) :
    InterfaceRecord × List String :=
  let res := fetch interface
  if res.rc ≠ 0 then
    ({ interface := interface, supported := false, parameters := {},
       msg := some "Failed to find ringparams" },
     ["Unable to run ethtool for " ++ interface ++ ": " ++ pyReplaceChar res.stderr '\n' '.'])
  else
    ({ interface := interface, supported := true, parameters := parseStdout res.stdout },
     [])

/-- `get_interfaces`: the discovery path. Its input is the observable result
of the `/proc/net/dev` pipeline command, or `none` when `/proc/net/dev` is
absent (`os.path.isfile` false). Returns the interface list and any warning
emitted. Each stdout line is stripped and kept unless it equals `lo`. -/
def get_interfaces (devQuery : Option FetchResult) : List String × List String :=
  match devQuery with
  | none => ([], [])
  | some res =>
    if res.rc = 0 then
      (((pySplitlines (pyStrip res.stdout)).map pyStrip).filter (fun i => i ≠ "lo"), [])
    else
      ([], ["Unable to fetch list of network interfaces: " ++ pyReplaceChar res.stderr '\n' '.'])

/-- Outcome of one `main` invocation: either the fatal `fail_json` (with the
`network_interfaces` partial state echoed back), or the `exit_json` facts:
the `ringparams` list plus the warnings emitted along the way. -/
inductive MainResult where
  | fatal (msg : String) (network_interfaces : List String) : MainResult
  | ok (ringparams : List InterfaceRecord) (warnings : List String) : MainResult
deriving DecidableEq, Repr

/-- `main` of the module. `ethtoolFound` is whether `shutil.which('ethtool')`
succeeded; `paramInterfaces` is the `interfaces` module parameter;
`devQuery` feeds discovery (used only when the parameter list is empty);
`fetch` is the observable behaviour of `ethtool -g <interface>`. -/
def mainRun (ethtoolFound : Bool) (paramInterfaces : List String)
    (devQuery : Option FetchResult) (fetch : String → FetchResult) : MainResult :=
  if ethtoolFound = false then
    MainResult.fatal "Could not find ethtool executable" paramInterfaces
  else
    let ifsW := if paramInterfaces.isEmpty then get_interfaces devQuery
      else (paramInterfaces, [])
    let processed := ifsW.1.map (processInterface fetch)
    MainResult.ok (processed.map Prod.fst) (ifsW.2 ++ (processed.map Prod.snd).flatten)

end RingparamsFacts

namespace RingparamsFacts

theorem applyPresetHeader_values (l : String) (st : ScanState) :
    (applyPresetHeader l st).values = st.values := by
  unfold applyPresetHeader; split <;> rfl

theorem applyCurrentHeader_values (l : String) (st : ScanState) :
    (applyCurrentHeader l st).values = st.values := by
  unfold applyCurrentHeader; split <;> rfl

theorem applyRX_pre (l : String) (st : ScanState) : (applyRX l st).pre = st.pre := by
  rcases st with ⟨p, c, v⟩
  unfold applyRX; split <;> cases c <;> cases p <;> rfl

theorem applyRX_current (l : String) (st : ScanState) : (applyRX l st).current = st.current := by
  rcases st with ⟨p, c, v⟩
  unfold applyRX; split <;> cases c <;> cases p <;> rfl

theorem applyTX_pre (l : String) (st : ScanState) : (applyTX l st).pre = st.pre := by
  rcases st with ⟨p, c, v⟩
  unfold applyTX; split <;> cases c <;> cases p <;> rfl

theorem applyTX_current (l : String) (st : ScanState) : (applyTX l st).current = st.current := by
  rcases st with ⟨p, c, v⟩
  unfold applyTX; split <;> cases c <;> cases p <;> rfl

theorem applyTX_current_RX (l : String) (st : ScanState) :
    (applyTX l st).values.current.RX = st.values.current.RX := by
  rcases st with ⟨p, c, v⟩
  unfold applyTX; split <;> cases c <;> cases p <;> rfl

theorem applyTX_preset_RX (l : String) (st : ScanState) :
    (applyTX l st).values.preset.RX = st.values.preset.RX := by
  rcases st with ⟨p, c, v⟩
  unfold applyTX; split <;> cases c <;> cases p <;> rfl

theorem applyRX_current_TX (l : String) (st : ScanState) :
    (applyRX l st).values.current.TX = st.values.current.TX := by
  rcases st with ⟨p, c, v⟩
  unfold applyRX; split <;> cases c <;> cases p <;> rfl

theorem applyRX_preset_TX (l : String) (st : ScanState) :
    (applyRX l st).values.preset.TX = st.values.preset.TX := by
  rcases st with ⟨p, c, v⟩
  unfold applyRX; split <;> cases c <;> cases p <;> rfl

end RingparamsFacts

namespace RingparamsFacts

theorem pyStartsWith_ne_presetHeader {l : String} (h : pyStartsWith l "RX:" = true) :
    l ≠ "Pre-set maximums:" := by
  intro he; subst he; exact absurd h (by decide)

theorem processLine_currentHeader (st : ScanState) :
    processLine st "Current hardware settings:" = { st with current := true, pre := false } := rfl

theorem processLine_rx1024 (st : ScanState) :
    (processLine { st with current := true, pre := false } "RX:1024").values.current.RX
      = some "1024" := rfl

theorem applyPresetHeader_of_ne {l : String} (st : ScanState)
    (h : l ≠ "Pre-set maximums:") : applyPresetHeader l st = st := by
  unfold applyPresetHeader; exact if_neg h

theorem applyCurrentHeader_of_ne {l : String} (st : ScanState)
    (h : l ≠ "Current hardware settings:") : applyCurrentHeader l st = st := by
  unfold applyCurrentHeader; exact if_neg h

theorem applyRX_init (l : String) : applyRX l initState = initState := by
  unfold applyRX; split <;> rfl

theorem applyTX_init (l : String) : applyTX l initState = initState := by
  unfold applyTX; split <;> rfl

theorem processLine_init_of_not_header (line : String)
    (h1 : pyStrip line ≠ "Pre-set maximums:")
    (h2 : pyStrip line ≠ "Current hardware settings:") :
    processLine initState line = initState := by
  simp only [processLine, applyPresetHeader_of_ne _ h1, applyCurrentHeader_of_ne _ h2,
    applyRX_init, applyTX_init]

theorem foldl_init_of_no_header (P : List String)
    (h : ∀ l ∈ P, pyStrip l ≠ "Pre-set maximums:" ∧ pyStrip l ≠ "Current hardware settings:") :
    List.foldl processLine initState P = initState := by
  induction P with
  | nil => rfl
  | cons a as ih =>
    have ha := h a (List.mem_cons_self a as)
    have := processLine_init_of_not_header a ha.1 ha.2
    simp only [List.foldl_cons, this]
    exact ih (fun l hl => h l (List.mem_cons_of_mem a hl))

theorem processLine_flags_exclusive (st : ScanState) (line : String)
    (h : (st.pre && st.current) = false) :
    ((processLine st line).pre && (processLine st line).current) = false := by
  unfold processLine
  rw [applyTX_pre, applyTX_current, applyRX_pre, applyRX_current]
  unfold applyPresetHeader applyCurrentHeader
  by_cases h1 : pyStrip line = "Pre-set maximums:"
  · rw [if_pos h1]
    have h2 : pyStrip line ≠ "Current hardware settings:" := by rw [h1]; decide
    rw [if_neg h2]; rfl
  · rw [if_neg h1]
    by_cases h2 : pyStrip line = "Current hardware settings:"
    · rw [if_pos h2]; rfl
    · rw [if_neg h2]; exact h

end RingparamsFacts

namespace RingparamsFacts

theorem pyStartsWith_tx_ne_presetHeader {l : String} (h : pyStartsWith l "TX:" = true) :
    l ≠ "Pre-set maximums:" := by
  intro he; subst he; exact absurd h (by decide)

theorem pyStartsWith_ne_currentHeader {l : String} (h : pyStartsWith l "RX:" = true) :
    l ≠ "Current hardware settings:" := by
  intro he; subst he; exact absurd h (by decide)

theorem pyStartsWith_tx_ne_currentHeader {l : String} (h : pyStartsWith l "TX:" = true) :
    l ≠ "Current hardware settings:" := by
  intro he; subst he; exact absurd h (by decide)

theorem applyRX_current_RX_of_current {l : String} {st : ScanState}
    (h : pyStartsWith l "RX:" = true) (hc : st.current = true) :
    (applyRX l st).values.current.RX = some (pyStrip ((pySplit l ':').getD 1 "")) := by
  rcases st with ⟨p, c, v⟩
  cases c with
  | false => exact Bool.noConfusion hc
  | true => unfold applyRX; rw [if_pos h]; cases p <;> rfl

theorem applyRX_preset_RX_of_pre {l : String} {st : ScanState}
    (h : pyStartsWith l "RX:" = true) (hp : st.pre = true) :
    (applyRX l st).values.preset.RX = some (pyStrip ((pySplit l ':').getD 1 "")) := by
  rcases st with ⟨p, c, v⟩
  cases p with
  | false => exact Bool.noConfusion hp
  | true => unfold applyRX; rw [if_pos h]; cases c <;> rfl

theorem applyTX_current_TX_of_current {l : String} {st : ScanState}
    (h : pyStartsWith l "TX:" = true) (hc : st.current = true) :
    (applyTX l st).values.current.TX = some (pyStrip ((pySplit l ':').getD 1 "")) := by
  rcases st with ⟨p, c, v⟩
  cases c with
  | false => exact Bool.noConfusion hc
  | true => unfold applyTX; rw [if_pos h]; cases p <;> rfl

theorem applyTX_preset_TX_of_pre {l : String} {st : ScanState}
    (h : pyStartsWith l "TX:" = true) (hp : st.pre = true) :
    (applyTX l st).values.preset.TX = some (pyStrip ((pySplit l ':').getD 1 "")) := by
  rcases st with ⟨p, c, v⟩
  cases p with
  | false => exact Bool.noConfusion hp
  | true => unfold applyTX; rw [if_pos h]; cases c <;> rfl

/-- Stored value for an `RX:`-matching line, in terms of the active flags of
the state the scanner enters the line with. -/
theorem processLine_rx_value (st : ScanState) (line : String)
    (h : pyStartsWith (pyStrip line) "RX:" = true) :
    (st.current = true →
      (processLine st line).values.current.RX
        = some (pyStrip ((pySplit (pyStrip line) ':').getD 1 ""))) ∧
    (st.pre = true →
      (processLine st line).values.preset.RX
        = some (pyStrip ((pySplit (pyStrip line) ':').getD 1 ""))) := by
  simp only [processLine]
  rw [applyPresetHeader_of_ne _ (pyStartsWith_ne_presetHeader h),
    applyCurrentHeader_of_ne _ (pyStartsWith_ne_currentHeader h),
    applyTX_current_RX, applyTX_preset_RX]
  exact ⟨fun hc => applyRX_current_RX_of_current h hc,
    fun hp => applyRX_preset_RX_of_pre h hp⟩

/-- Stored value for a `TX:`-matching line. -/
theorem processLine_tx_value (st : ScanState) (line : String)
    (h : pyStartsWith (pyStrip line) "TX:" = true) :
    (st.current = true →
      (processLine st line).values.current.TX
        = some (pyStrip ((pySplit (pyStrip line) ':').getD 1 ""))) ∧
    (st.pre = true →
      (processLine st line).values.preset.TX
        = some (pyStrip ((pySplit (pyStrip line) ':').getD 1 ""))) := by
  simp only [processLine]
  rw [applyPresetHeader_of_ne _ (pyStartsWith_tx_ne_presetHeader h),
    applyCurrentHeader_of_ne _ (pyStartsWith_tx_ne_currentHeader h)]
  constructor
  · intro hc
    rw [applyTX_current_TX_of_current h]
    rw [applyRX_current, hc]
  · intro hp
    rw [applyTX_preset_TX_of_pre h]
    rw [applyRX_pre, hp]

end RingparamsFacts

namespace RingparamsFacts

theorem processInterface_interface (fetch : String → FetchResult) (i : String) :
    ((processInterface fetch i).1).interface = i := by
  simp only [processInterface]; split <;> rfl

theorem processInterface_support_flag (fetch : String → FetchResult) (i : String) :
    (((processInterface fetch i).1).supported = false
      ↔ ((processInterface fetch i).1).msg.isSome = true)
    ∧ (((processInterface fetch i).1).supported = false
      → (((processInterface fetch i).1).parameters).isEmptyB = true) := by
  simp only [processInterface]
  split
  · exact ⟨by simp, fun _ => rfl⟩
  · constructor
    · simp
    · intro hc; exact Bool.noConfusion hc

theorem mainRun_true (ps : List String) (devQuery : Option FetchResult)
    (fetch : String → FetchResult) (h : ps ≠ []) :
    mainRun true ps devQuery fetch
      = MainResult.ok (ps.map (fun i => (processInterface fetch i).1))
        ((ps.map (fun i => (processInterface fetch i).2)).flatten) := by
  unfold mainRun
  rw [if_neg (by decide : ¬ (true = false))]
  have he : ps.isEmpty = false := by
    cases ps with
    | nil => exact absurd rfl h
    | cons a as => rfl
  simp only [he, Bool.false_eq_true, if_false, List.map_map, List.nil_append]
  rfl

end RingparamsFacts

namespace RingparamsFacts

theorem mainRun_true_records (ps : List String) (devQuery : Option FetchResult)
    (fetch : String → FetchResult) :
    mainRun true ps devQuery fetch
      = MainResult.ok
        (((if ps.isEmpty then get_interfaces devQuery else (ps, [])).1).map
          (fun i => (processInterface fetch i).1))
        ((if ps.isEmpty then get_interfaces devQuery else (ps, [])).2
          ++ (((if ps.isEmpty then get_interfaces devQuery else (ps, [])).1).map
            (fun i => (processInterface fetch i).2)).flatten) := by
  unfold mainRun
  rw [if_neg (by decide : ¬(true = false))]
  simp only [List.map_map]
  rfl

def fetchEmpty : String → FetchResult := fun _ => ⟨0, "", ""⟩

def fetchFail : String → FetchResult := fun _ => ⟨1, "", "no such device"⟩

/-- The record `main` emits for an interface whose query returned exit code 0
with empty stdout. -/
def emptyStdoutRecord : InterfaceRecord :=
  { interface := "eno1", supported := true, parameters := {} }

/-- The record `main` emits for an interface whose query exited non-zero. -/
def failRecord : InterfaceRecord :=
  { interface := "eno4", supported := false, parameters := {},
    msg := some "Failed to find ringparams" }

/-- C1 counterexample: with exit code 0 and empty stdout the aggregator emits
a record whose parameter sets are both empty while `supported` is `true` and
`msg` is absent, so "msg present iff both parameter sets empty" fails. -/
theorem support_flag_equiv_fails :
    mainRun true ["eno1"] none fetchEmpty = MainResult.ok [emptyStdoutRecord] []
    ∧ emptyStdoutRecord.parameters.isEmptyB = true
    ∧ emptyStdoutRecord.supported = true
    ∧ emptyStdoutRecord.msg = none
    ∧ ¬ ((emptyStdoutRecord.msg.isSome = true)
        ↔ (emptyStdoutRecord.parameters.isEmptyB = true)) :=
  ⟨by decide, by decide, by decide, by decide, by decide⟩

/-- C1 (amended): for every record emitted by the aggregator, `supported=false`
iff `msg` is present, and `supported=false` implies both parameter sets are
empty (the converse of the latter does not hold). -/
theorem support_flag_consistency (e : Bool) (ps : List String)
    (devQuery : Option FetchResult) (fetch : String → FetchResult)
    (records : List InterfaceRecord) (ws : List String)
    (h : mainRun e ps devQuery fetch = MainResult.ok records ws) :
    ∀ r ∈ records, (r.supported = false ↔ r.msg.isSome = true)
      ∧ (r.supported = false → r.parameters.isEmptyB = true) := by
  cases e with
  | false => simp [mainRun] at h
  | true =>
    rw [mainRun_true_records] at h
    injection h with h1 h2
    intro r hr
    rw [← h1] at hr
    obtain ⟨i, hi, rfl⟩ := List.mem_map.mp hr
    exact processInterface_support_flag fetch i

theorem support_flag_consistency_witness :
    (mainRun true ["eno4"] none fetchFail
      = MainResult.ok [failRecord] ["Unable to run ethtool for eno4: no such device"])
    ∧ ((failRecord.supported = false ↔ failRecord.msg.isSome = true)
      ∧ (failRecord.supported = false → failRecord.parameters.isEmptyB = true)) :=
  ⟨by decide,
   support_flag_consistency true ["eno4"] none fetchFail
     [failRecord] ["Unable to run ethtool for eno4: no such device"]
     (by decide) failRecord (by decide)⟩

end RingparamsFacts

namespace RingparamsFacts

/-- Modelled from the spec's words, for comparison with the source: "split on
the first colon, trim the remainder" read as the entire remainder of the line
after the first colon, trimmed, with any further colons preserved verbatim. -/
def specAfterFirstColon (l : String) : String :=
  pyStrip (String.mk ((l.data.dropWhile (fun c => c ≠ ':')).tail))

/-- C2 counterexample: for the line `RX:  512 : note` scanned in the current
section, the source stores `512` (the segment between the first and second
colons), not the whole trimmed remainder `512 : note`, so text after a
further colon is dropped rather than preserved. -/
theorem rx_value_not_rest_of_line :
    (parseStdout "Current hardware settings:\nRX:  512 : note").current.RX = some "512"
    ∧ specAfterFirstColon "RX:  512 : note" = "512 : note"
    ∧ (parseStdout "Current hardware settings:\nRX:  512 : note").current.RX
        ≠ some (specAfterFirstColon "RX:  512 : note") :=
  ⟨by decide, by decide, by decide⟩

/-- C2 (amended): for every stdout line whose trimmed form starts with `RX:`
(or `TX:`) while a section flag is active, the stored value is the trimmed
segment of the line between the first and second colons (the whole remainder
when there is no second colon); annotations containing no further colon are
preserved, text from a second colon onward is not. -/
theorem rx_tx_value_between_colons (st : ScanState) (line : String) :
    (pyStartsWith (pyStrip line) "RX:" = true →
      (st.current = true → (processLine st line).values.current.RX
          = some (pyStrip ((pySplit (pyStrip line) ':').getD 1 "")))
      ∧ (st.pre = true → (processLine st line).values.preset.RX
          = some (pyStrip ((pySplit (pyStrip line) ':').getD 1 ""))))
    ∧ (pyStartsWith (pyStrip line) "TX:" = true →
      (st.current = true → (processLine st line).values.current.TX
          = some (pyStrip ((pySplit (pyStrip line) ':').getD 1 "")))
      ∧ (st.pre = true → (processLine st line).values.preset.TX
          = some (pyStrip ((pySplit (pyStrip line) ':').getD 1 "")))) :=
  ⟨processLine_rx_value st line, processLine_tx_value st line⟩

theorem rx_tx_value_between_colons_witness :
    (processLine { pre := false, current := true, values := {} }
      "RX:  512 [note]").values.current.RX = some "512 [note]" :=
  ((rx_tx_value_between_colons { pre := false, current := true, values := {} }
    "RX:  512 [note]").1 (by decide)).1 rfl

/-- C3: for every non-empty explicit interface list, the emitted ResultSet
has exactly one record per input interface, in the input order (no interface
is dropped, whatever its query's exit code). -/
theorem resultset_complete (ps : List String) (devQuery : Option FetchResult)
    (fetch : String → FetchResult) (records : List InterfaceRecord)
    (ws : List String) (hne : ps ≠ [])
    (h : mainRun true ps devQuery fetch = MainResult.ok records ws) :
    records.length = ps.length
      ∧ records.map InterfaceRecord.interface = ps := by
  rw [mainRun_true ps devQuery fetch hne] at h
  injection h with h1 h2
  rw [← h1]
  constructor
  · simp
  · rw [List.map_map]
    have hcomp : (InterfaceRecord.interface ∘ fun i => (processInterface fetch i).1)
        = fun i : String => i := by
      funext i; exact processInterface_interface fetch i
    rw [hcomp]
    exact List.map_id ps

theorem resultset_complete_witness :
    (["eno3", "eno4"] ≠ ([] : List String))
    ∧ (mainRun true ["eno3", "eno4"] none fetchFail
        = MainResult.ok
          [{ interface := "eno3", supported := false, parameters := {},
             msg := some "Failed to find ringparams" }, failRecord]
          ["Unable to run ethtool for eno3: no such device",
           "Unable to run ethtool for eno4: no such device"])
    ∧ ([{ interface := "eno3", supported := false, parameters := {},
          msg := some "Failed to find ringparams" }, failRecord].length = 2
      ∧ [{ interface := "eno3", supported := false, parameters := {},
           msg := some "Failed to find ringparams" },
          failRecord].map InterfaceRecord.interface = ["eno3", "eno4"]) :=
  ⟨by decide, by decide,
   resultset_complete ["eno3", "eno4"] none fetchFail
     [{ interface := "eno3", supported := false, parameters := {},
        msg := some "Failed to find ringparams" }, failRecord]
     ["Unable to run ethtool for eno3: no such device",
      "Unable to run ethtool for eno4: no such device"]
     (by decide) (by decide)⟩

/-- C4: when the `Current hardware settings:` header occurs a second time,
the RX value recorded after the final occurrence overwrites the one recorded
after the first: the last value seen for the (current, RX) pair wins. -/
theorem repeated_header_last_wins (s : String) (P Q : List String)
    (h : pySplitlines (pyStrip s)
      = P ++ ("Current hardware settings:" :: "RX:512" :: Q)
        ++ ["Current hardware settings:", "RX:1024"]) :
    (parseStdout s).current.RX = some "1024" := by
  unfold parseStdout
  rw [h, List.foldl_append]
  simp only [List.foldl_cons, List.foldl_nil]
  rw [processLine_currentHeader]
  exact processLine_rx1024 _

theorem repeated_header_last_wins_witness :
    (pySplitlines (pyStrip
        "Current hardware settings:\nRX:512\nCurrent hardware settings:\nRX:1024")
      = [] ++ ("Current hardware settings:" :: "RX:512" :: [])
        ++ ["Current hardware settings:", "RX:1024"])
    ∧ (parseStdout
        "Current hardware settings:\nRX:512\nCurrent hardware settings:\nRX:1024").current.RX
      = some "1024" :=
  ⟨by decide,
   repeated_header_last_wins
     "Current hardware settings:\nRX:512\nCurrent hardware settings:\nRX:1024"
     [] [] (by decide)⟩

/-- C5: a run of stdout lines none of which is a section header leaves the
scanner in its initial state, so RX/TX lines before the first header
contribute no entry: the final parameter sets are determined by the remaining
lines alone. -/
theorem lines_before_header_ignored (s : String) (P R : List String)
    (hsplit : pySplitlines (pyStrip s) = P ++ R)
    (hP : ∀ l ∈ P, pyStrip l ≠ "Pre-set maximums:"
      ∧ pyStrip l ≠ "Current hardware settings:") :
    parseStdout s = (List.foldl processLine initState R).values := by
  unfold parseStdout
  rw [hsplit, List.foldl_append, foldl_init_of_no_header P hP]

theorem lines_before_header_ignored_witness :
    (pySplitlines (pyStrip "RX: 7\nTX: 8\nPre-set maximums:\nRX: 9")
      = ["RX: 7", "TX: 8"] ++ ["Pre-set maximums:", "RX: 9"])
    ∧ (∀ l ∈ ["RX: 7", "TX: 8"], pyStrip l ≠ "Pre-set maximums:"
        ∧ pyStrip l ≠ "Current hardware settings:")
    ∧ parseStdout "RX: 7\nTX: 8\nPre-set maximums:\nRX: 9"
      = (List.foldl processLine initState ["Pre-set maximums:", "RX: 9"]).values
    ∧ parseStdout "RX: 7\nTX: 8\nPre-set maximums:\nRX: 9"
      = { current := {}, preset := { RX := some "9" } } :=
  ⟨by decide, by decide,
   lines_before_header_ignored "RX: 7\nTX: 8\nPre-set maximums:\nRX: 9"
     ["RX: 7", "TX: 8"] ["Pre-set maximums:", "RX: 9"] (by decide) (by decide),
   by decide⟩

end RingparamsFacts

namespace RingparamsFacts

/-- Pipeline output for a discovery source listing `eno1`, `eno2`, `lo`, in
that order (one interface name per line, as the `awk` stage emits it). -/
def discoveryListing : FetchResult := ⟨0, "  eno1\n  eno2\n    lo", ""⟩

/-- C6: with an empty explicit list and an available discovery source listing
`eno1`, `eno2`, `lo` in that order, the resolved interface list is exactly
`[eno1, eno2]`: `lo` is excluded, the source order is preserved, and `main`
processes exactly those two interfaces. -/
theorem autodiscovery_excludes_loopback :
    get_interfaces (some discoveryListing) = (["eno1", "eno2"], [])
    ∧ ∀ fetch : String → FetchResult,
      mainRun true [] (some discoveryListing) fetch
        = MainResult.ok
          [(processInterface fetch "eno1").1, (processInterface fetch "eno2").1]
          ((processInterface fetch "eno1").2 ++ ((processInterface fetch "eno2").2 ++ [])) :=
  ⟨by decide, fun _ => rfl⟩

/-- C7: an interface whose query exits non-zero yields a `supported=false`
record with empty parameter sets and the fixed message, plus a warning built
from the interface name and the stderr text with newlines collapsed to `.`;
the remaining interfaces are still processed. -/
theorem nonzero_exit_degrades_only_interface (fetch : String → FetchResult)
    (i : String) (h : (fetch i).rc ≠ 0) :
    processInterface fetch i
      = ({ interface := i, supported := false, parameters := {},
           msg := some "Failed to find ringparams" },
         ["Unable to run ethtool for " ++ i ++ ": "
           ++ pyReplaceChar (fetch i).stderr '\n' '.'])
    ∧ ∀ (rest : List String) (devQuery : Option FetchResult),
        mainRun true (i :: rest) devQuery fetch
          = MainResult.ok
            ((processInterface fetch i).1
              :: rest.map (fun j => (processInterface fetch j).1))
            ((processInterface fetch i).2
              ++ (rest.map (fun j => (processInterface fetch j).2)).flatten) := by
  constructor
  · simp only [processInterface]
    rw [if_pos h]
  · intro rest devQuery
    rw [mainRun_true (i :: rest) devQuery fetch (by simp)]
    rfl

theorem nonzero_exit_degrades_only_interface_witness :
    ((fetchFail "eno4").rc ≠ 0)
    ∧ processInterface fetchFail "eno4"
      = (failRecord, ["Unable to run ethtool for eno4: no such device"]) :=
  ⟨by decide, (nonzero_exit_degrades_only_interface fetchFail "eno4" (by decide)).1⟩

/-- C8: when the ethtool executable cannot be located, `main` fails at once
with the fatal message (echoing back the explicit interface list), producing
no records; and a fatal outcome arises only from that condition. -/
theorem missing_ethtool_fatal (ps : List String) (devQuery : Option FetchResult)
    (fetch : String → FetchResult) :
    mainRun false ps devQuery fetch
      = MainResult.fatal "Could not find ethtool executable" ps
    ∧ ∀ e : Bool, (∃ m ifs, mainRun e ps devQuery fetch = MainResult.fatal m ifs)
        → e = false := by
  constructor
  · rfl
  · rintro e ⟨m, ifs, hm⟩
    cases e with
    | false => rfl
    | true => simp [mainRun] at hm

theorem missing_ethtool_fatal_witness :
    (mainRun false ["eno1"] none fetchEmpty
      = MainResult.fatal "Could not find ethtool executable" ["eno1"])
    ∧ false = false :=
  ⟨(missing_ethtool_fatal ["eno1"] none fetchEmpty).1,
   (missing_ethtool_fatal ["eno1"] none fetchEmpty).2 false
     ⟨"Could not find ethtool executable", ["eno1"],
      (missing_ethtool_fatal ["eno1"] none fetchEmpty).1⟩⟩

/-- C9: scanning any list of stdout lines from the initial state never makes
the `pre` and `current` section flags simultaneously true, so an `RX:` or
`TX:` line updates at most one of the two parameter sets. -/
theorem section_flags_mutually_exclusive (lines : List String) :
    ((List.foldl processLine initState lines).pre
      && (List.foldl processLine initState lines).current) = false := by
  suffices h : ∀ st : ScanState, (st.pre && st.current) = false →
      ((List.foldl processLine st lines).pre
        && (List.foldl processLine st lines).current) = false from
    h initState rfl
  induction lines with
  | nil => exact fun st h => h
  | cons a as ih =>
    exact fun st h => ih _ (processLine_flags_exclusive st a h)

/-- C10: a line whose trimmed form is exactly `RX:` (or `TX:`) scanned while
a section flag is active stores the empty string: the key becomes present in
the active parameter set, mapped to empty text. -/
theorem bare_rx_tx_stores_empty_value (st : ScanState) (line : String) :
    (pyStrip line = "RX:" →
      (st.current = true → (processLine st line).values.current.RX = some "")
      ∧ (st.pre = true → (processLine st line).values.preset.RX = some ""))
    ∧ (pyStrip line = "TX:" →
      (st.current = true → (processLine st line).values.current.TX = some "")
      ∧ (st.pre = true → (processLine st line).values.preset.TX = some "")) := by
  constructor
  · intro h
    have hs : pyStartsWith (pyStrip line) "RX:" = true := by rw [h]; decide
    have hv := processLine_rx_value st line hs
    rw [h] at hv
    exact hv
  · intro h
    have hs : pyStartsWith (pyStrip line) "TX:" = true := by rw [h]; decide
    have hv := processLine_tx_value st line hs
    rw [h] at hv
    exact hv

theorem bare_rx_tx_stores_empty_value_witness :
    (processLine { pre := true, current := false, values := {} }
      "  RX:  ").values.preset.RX = some "" :=
  ((bare_rx_tx_stores_empty_value { pre := true, current := false, values := {} }
    "  RX:  ").1 (by decide)).2 rfl

end RingparamsFacts
